import Mathlib

/-!
Verification of the monitor-dashboard client (`src/monitor/static/app.js`).

The repository ships two variants of the same dashboard: a vanilla-JS class
`MonitorDashboard` and a React function component of the same name.  Both poll
`/api/snapshot` and `/api/signals?limit=10` on a 2000 ms timer and map the
fetched JSON deterministically onto the display surface.  The class variant
protects the cycle with a working `isUpdating` check-and-set guard; the React
variant writes the same guard but its interval callback only ever sees the
mount render's closure, so that guard is inert (see `intervalTickReact`).

Embedding conventions:
* JS numbers that carry monetary / percentage values are modelled as `ℚ`
  (JSON numbers are exact decimals; `Number.prototype.toFixed(2)` is modelled
  by `toFixed2`, which rounds `|q|` to cent precision half-up and re-attaches
  the sign, exactly the algorithm prescribed for `toFixed`).
* Timestamps are modelled as `Nat` epoch milliseconds.  Locale-dependent
  time formatting (`toLocaleTimeString`) is display-environment dependent, so
  rendered views keep the raw timestamp value.
* A sub-fetch outcome is an `HttpOutcome`: a rejected `fetch` promise, or a
  response carrying its status-success flag and a body that may or may not
  decode as JSON.  The code never reads `response.ok` or `response.status`,
  so `processFetch` discards the flag: only a rejected fetch or an
  undecodable body lands in the `catch` of `updateSnapshot` /
  `updateSignals`; every decoded body — whatever the HTTP status — reaches
  the renderer.
* Neither variant validates the shape of a decoded body.  For the React
  snapshot fetch, where this is observable in the state machine, the body is
  a `SnapshotBody`: a snapshot-shaped object or the falsy JSON value `null`
  (`false`/`0`/`""` behave the same for the `!snapshot` test; a truthy
  non-shaped body instead throws during the subsequent render, leaving the
  two-state view altogether, and is outside this model).
* The `async` update cycle of the class variant is embedded as a two-event
  state machine (`Event.tick` = the timer callback running the synchronous
  check-and-set prologue of `updateData`; `Event.complete` = the resumption
  after `Promise.all`, running the renders and the `finally` block).
-/

/-- Cent value of `|q|`, rounded half-up: `⌊|q| * 100 + 1/2⌋` computed as
`(200 * |num| + den) / (2 * den)` in `Nat` arithmetic (the denominator of a
`Rat` is positive, so the two agree). Used to model `toFixed(2)`. -/
def cents (q : ℚ) : Nat :=
  (200 * q.num.natAbs + q.den) / (2 * q.den)

/-- Model of `x.toFixed(2)` (app.js lines 65, 104, 108, 133): sign of `q`,
integer part, a dot, then exactly the two decimal digits of the cent value. -/
def toFixed2 (q : ℚ) : String :=
  (if q < 0 then ("-") else ("")) ++ toString (cents q / 100) ++ (".") ++
    String.mk [Nat.digitChar (cents q / 10 % 10), Nat.digitChar (cents q % 10)]

/-- Model of `String.prototype.toLowerCase` (ASCII range, which is all the
source ever feeds it). -/
def jsToLower (s : String) : String :=
  String.mk (s.data.map Char.toLower)

/-- `leadsWith pat l` is true iff `pat` is an initial segment of `l`. -/
def leadsWith : List Char → List Char → Bool
  | [], _ => true
  | _ :: _, [] => false
  | a :: as, b :: bs => a == b && leadsWith as bs

/-- Helper for substring search: does `pat` occur contiguously in `l`? -/
def includesAux (pat : List Char) : List Char → Bool
  | [] => pat.isEmpty
  | c :: t => leadsWith pat (c :: t) || includesAux pat t

/-- Model of `String.prototype.includes` (app.js lines 230-231). -/
def jsIncludes (s pat : String) : Bool :=
  includesAux pat.data s.data

/-- Status style key (app.js line 54):
`data.system_status.toLowerCase().replace(/[^a-z]/g, '')` — lower-case the
status, then drop every character outside `a`-`z`. -/
def statusClass (s : String) : String :=
  String.mk ((s.data.map Char.toLower).filter (fun c => decide ('a' ≤ c ∧ c ≤ 'z')))

/-- Model of `formatUptime` (app.js lines 143-147 and 200-204, identical):
`Math.floor(seconds/3600)` hours and `Math.floor((seconds%3600)/60)` minutes.
The spec fixes `uptime_seconds` to be a non-negative integer, so `Nat`
division coincides with `Math.floor` of JS division. -/
def formatUptime (seconds : Nat) : String :=
  toString (seconds / 3600) ++ ("小时") ++ toString (seconds % 3600 / 60) ++ ("分钟")

/-- Per-symbol state inside `Snapshot.symbols` (spec §3). `current_price` and
`price_change_pct` are optional in the payload. -/
structure SymbolState where
  symbol : String
  trend : String
  current_price : Option ℚ
  price_change_pct : Option ℚ
deriving DecidableEq

/-- One element of the signal history (spec §3). -/
structure Signal where
  signal_type : String
  symbol : String
  price : ℚ
  timestamp : Nat
  reason : String
deriving DecidableEq

/-- The snapshot payload of `/api/snapshot` (spec §3, §6). The `symbols`
object is modelled as a key-value list in object-iteration order. -/
structure Snapshot where
  timestamp : Nat
  system_status : String
  total_signals : Nat
  active_positions : Nat
  daily_pnl : ℚ
  data_feed_connected : Bool
  trading_api_connected : Bool
  cpu_usage : ℚ
  memory_usage : ℚ
  uptime_seconds : Nat
  symbols : List (String × SymbolState)
deriving DecidableEq

/-- Rendered PnL element (app.js lines 64-66): text content and text color. -/
structure PnlView where
  text : String
  color : String
deriving DecidableEq

/-- Rendered percentage span for `price_change_pct` (app.js lines 106-110). -/
structure PctView where
  color : String
  text : String
deriving DecidableEq

/-- Rendered entry of the symbols list (app.js lines 94-113).
`pctElement = none` means the percentage span is omitted from the markup. -/
structure RenderedSymbol where
  name : String
  trendClass : String
  trendLabel : String
  priceText : String
  pctElement : Option PctView
deriving DecidableEq

/-- Rendered entry of the signals list (app.js lines 126-138). The timestamp
is kept raw (locale formatting is environment-dependent). -/
structure RenderedSignal where
  typeClass : String
  typeLabel : String
  symbol : String
  priceText : String
  timestamp : Nat
  reason : String
deriving DecidableEq

/-- The symbols panel: either the empty-state paragraph or a list. -/
inductive SymbolsView where
  | placeholder (msg : String)
  | items (l : List RenderedSymbol)
deriving DecidableEq

/-- The signals panel: either the empty-state paragraph or a list. -/
inductive SignalsView where
  | placeholder (msg : String)
  | items (l : List RenderedSignal)
deriving DecidableEq

/-- Model of the PnL rendering (app.js lines 64-66):
`'$' + data.daily_pnl.toFixed(2)` and color by the sign test `>= 0`. -/
def renderPnl (daily_pnl : ℚ) : PnlView :=
  { text := ("$") ++ toFixed2 daily_pnl
    color := if daily_pnl ≥ 0 then ("#27ae60") else ("#e74c3c") }

/-- Model of one iteration of `renderSymbols`'s map (app.js lines 94-113).
JS truthiness on a number is `≠ 0` (and absent is falsy), so
`symbol.current_price ? … : '--'` and `symbol.price_change_pct ? … : ''`
take the falsy branch exactly on `none` and `some 0`. -/
def renderSymbolItem (sym : SymbolState) : RenderedSymbol :=
  { name := sym.symbol
    trendClass := ("trend-") ++ jsToLower sym.trend
    trendLabel := sym.trend
    priceText := ("$") ++ (match sym.current_price with
      | some p => if p = 0 then ("--") else toFixed2 p
      | none => ("--"))
    pctElement := match sym.price_change_pct with
      | some p =>
          if p = 0 then none
          else some { color := if p ≥ 0 then ("#27ae60") else ("#e74c3c")
                      text := toFixed2 p ++ ("%") }
      | none => none }

/-- Model of `renderSymbols` (app.js lines 86-116): empty mapping renders the
placeholder paragraph, otherwise one item per `Object.values` entry. -/
def renderSymbols (symbols : List (String × SymbolState)) : SymbolsView :=
  if symbols.length = 0 then SymbolsView.placeholder ("暂无股票数据")
  else SymbolsView.items (symbols.map (fun kv => renderSymbolItem kv.2))

/-- Model of one iteration of `renderSignals`'s map (app.js lines 126-138). -/
def renderSignalItem (s : Signal) : RenderedSignal :=
  { typeClass := ("signal-") ++ jsToLower s.signal_type
    typeLabel := s.signal_type
    symbol := s.symbol
    priceText := ("$") ++ toFixed2 s.price
    timestamp := s.timestamp
    reason := s.reason }

/-- Model of `renderSignals` (app.js lines 118-141): empty history renders the
placeholder paragraph, otherwise the first 10 entries (`signals.slice(0, 10)`)
in input order. -/
def renderSignals (signals : List Signal) : SignalsView :=
  if signals.length = 0 then SignalsView.placeholder ("暂无信号数据")
  else SignalsView.items ((signals.take 10).map renderSignalItem)

/-- The view derived from one snapshot by `renderSnapshot`
(app.js lines 49-84).  Numeric pass-through fields (`cpu_usage`,
`memory_usage`, counters, timestamp) are kept as values; the derived display
strings/classes are computed exactly as in the source. -/
structure SnapshotView where
  statusText : String
  statusClassName : String
  lastUpdateTimestamp : Nat
  total_signals : Nat
  active_positions : Nat
  pnl : PnlView
  dataFeedClass : String
  tradingApiClass : String
  cpu_usage : ℚ
  memory_usage : ℚ
  uptimeText : String
  symbols : SymbolsView
deriving DecidableEq

/-- Model of `renderSnapshot` (app.js lines 49-84). -/
def renderSnapshot (data : Snapshot) : SnapshotView :=
  { statusText := data.system_status
    statusClassName := ("status-indicator ") ++ statusClass data.system_status
    lastUpdateTimestamp := data.timestamp
    total_signals := data.total_signals
    active_positions := data.active_positions
    pnl := renderPnl data.daily_pnl
    dataFeedClass := ("connection-indicator ") ++
      (if data.data_feed_connected then ("connected") else ("disconnected"))
    tradingApiClass := ("connection-indicator ") ++
      (if data.trading_api_connected then ("connected") else ("disconnected"))
    cpu_usage := data.cpu_usage
    memory_usage := data.memory_usage
    uptimeText := formatUptime data.uptime_seconds
    symbols := renderSymbols data.symbols }

/-- Boundary outcome of one sub-fetch.  `netError` is a rejected
`fetch(...)` promise; `response ok body` is an HTTP response whose
status-success flag (`response.ok`) is `ok` and whose body decodes to
`some` payload or fails to decode as JSON (`none`).  The flag is carried so
that statements about non-success statuses can be expressed; the source
itself never reads it. -/
inductive HttpOutcome (α : Type) where
  | netError
  | response (ok : Bool) (body : Option α)
deriving DecidableEq

/-- What reaches the render call of a sub-fetch's `try` body (app.js lines
29-47 and 163-183): the code performs `await fetch(...)` then
`await response.json()` with no `response.ok` check, so every decoded body
is processed whatever the HTTP status, and only a rejected fetch or an
undecodable body falls through to the `catch`. -/
def processFetch {α : Type} : HttpOutcome α → Option α
  | HttpOutcome.netError => none
  | HttpOutcome.response _ (some d) => some d
  | HttpOutcome.response _ none => none

/-- The outcomes on which a sub-fetch's own `catch` fires — the only
failures the code detects: a rejected fetch or a body that fails to decode.
A non-success status with a decodable body is not among them. -/
def fetchThrew {α : Type} : HttpOutcome α → Bool
  | HttpOutcome.netError => true
  | HttpOutcome.response _ none => true
  | HttpOutcome.response _ (some _) => false

/-- Dashboard state of the class variant: the overlap guard plus the
last-rendered content of the two panels (`none` = nothing rendered yet). -/
structure DashState where
  isUpdating : Bool
  snapshotView : Option SnapshotView
  signalsView : Option SignalsView
deriving DecidableEq

/-- Events of the update-cycle state machine for the class variant.
`tick` is one invocation of `updateData` (app.js lines 13-15): the timer
callback runs the synchronous prologue `if (this.isUpdating) return;
this.isUpdating = true` before the first `await`.  `complete snap sigs` is
the resumption after `Promise.all([updateSnapshot(), updateSignals()])`
resolves (lines 17-26): each sub-fetch outcome is applied by its `try/catch`
body (render whatever body decoded, swallow a throw), then the `finally`
block clears the guard. -/
inductive Event where
  | tick
  | complete (snap : HttpOutcome Snapshot) (sigs : HttpOutcome (List Signal))

/-- One step of the class-variant update machine (app.js lines 13-47). -/
def step (st : DashState) : Event → DashState
  | Event.tick =>
      if st.isUpdating then st
      else { st with isUpdating := true }
  | Event.complete snap sigs =>
      if st.isUpdating then
        { isUpdating := false
          snapshotView := match processFetch snap with
            | some d => some (renderSnapshot d)
            | none => st.snapshotView
          signalsView := match processFetch sigs with
            | some l => some (renderSignals l)
            | none => st.signalsView }
      else st

/-- Status badge class of the React variant (app.js lines 229-233):
case-insensitive substring match on "running" / "stopped", with a yellow
fallback for everything else. -/
def statusBadgeClass (system_status : String) : String :=
  if jsIncludes (jsToLower system_status) ("running") then ("bg-green-600")
  else if jsIncludes (jsToLower system_status) ("stopped") then ("bg-red-600")
  else ("bg-yellow-600")

/-- PnL color class of the React variant (app.js line 255): same `>= 0`
sign test as the class variant, Tailwind class names instead of hex. -/
def pnlClassReact (daily_pnl : ℚ) : String :=
  if daily_pnl ≥ 0 then ("text-green-600") else ("text-red-600")

/-- One rendered signal row of the React variant (app.js lines 343-357). -/
def renderSignalItemReact (s : Signal) : RenderedSignal :=
  { typeClass := if jsToLower s.signal_type = ("buy")
      then ("bg-green-600") else ("bg-red-600")
    typeLabel := s.signal_type
    symbol := s.symbol
    priceText := ("$") ++ toFixed2 s.price
    timestamp := s.timestamp
    reason := s.reason }

/-- The signals panel of the React variant (app.js lines 339-359):
empty-state paragraph, else `signals.slice(0, 10)` rows. -/
def signalsPanelReact (signals : List Signal) : SignalsView :=
  if signals.length = 0 then SignalsView.placeholder ("暂无信号数据")
  else SignalsView.items ((signals.take 10).map renderSignalItemReact)

/-- The percentage slot of one React symbol row (app.js lines 324-328):
`{symbol.price_change_pct && (<span …>…</span>)}`.  JSX renders nothing for
`false`/`null`/`undefined`, but when the left operand of `&&` is the number
`0` the expression evaluates to `0` itself and JSX renders it as a literal
text node `0` — the element is not omitted. -/
inductive JsxPctNode where
  | omitted
  | literalZero
  | span (cls : String) (text : String)
deriving DecidableEq

/-- Model of the React percentage rendering (app.js lines 324-328). -/
def renderPctReact (pct : Option ℚ) : JsxPctNode :=
  match pct with
  | none => JsxPctNode.omitted
  | some p =>
      if p = 0 then JsxPctNode.literalZero
      else JsxPctNode.span
        (if p ≥ 0 then ("text-green-600") else ("text-red-600"))
        (toFixed2 p ++ ("%"))

/-- A decoded body of the snapshot endpoint, as stored by the unvalidated
`setSnapshot(data)` (app.js line 167): a snapshot-shaped object, or the
falsy JSON value `null` (the canonical malformed-but-decodable body;
`false`/`0`/`""` behave identically for the `!snapshot` test, while a
truthy non-shaped body throws during the subsequent render and is outside
this two-state model). -/
inductive SnapshotBody where
  | shaped (d : Snapshot)
  | jsNull
deriving DecidableEq

/-- Snapshot-fetch outcomes that can never clear a stored snapshot: every
outcome except a response whose body decodes to the falsy JSON value. -/
def keepsSnapshot : HttpOutcome SnapshotBody → Bool
  | HttpOutcome.response _ (some SnapshotBody.jsNull) => false
  | _ => true

/-- React component state (app.js lines 157-160): `snapshot` starts `null`,
`signals` starts `[]`, `lastUpdate` starts as the placeholder.
`snapshot = none` means a falsy value is stored in the `useState` cell. -/
structure ReactState where
  snapshot : Option Snapshot
  signals : List Signal
  lastUpdate : Option Nat
  isUpdating : Bool
deriving DecidableEq

/-- Model of `fetchSnapshot` (app.js lines 163-172).  A throw before the
body decodes (rejected fetch, undecodable body) reaches the `catch` with no
state update.  A decoded body is stored by `setSnapshot(data)` with no
shape check: a shaped body also sets the last-update time from
`data.timestamp`; the body `null` is committed by `setSnapshot(null)`
before `data.timestamp` throws into the `catch`, so the cell becomes falsy
again and `lastUpdate` is left unchanged. -/
def fetchSnapshotR (st : ReactState) (o : HttpOutcome SnapshotBody) : ReactState :=
  match processFetch o with
  | none => st
  | some (SnapshotBody.shaped d) =>
      { st with snapshot := some d, lastUpdate := some d.timestamp }
  | some SnapshotBody.jsNull => { st with snapshot := none }

/-- Model of `fetchSignals` (app.js lines 175-183): a decoded body —
whatever the HTTP status — is stored; a throw leaves state unchanged. -/
def fetchSignalsR (st : ReactState) (o : HttpOutcome (List Signal)) : ReactState :=
  match processFetch o with
  | some l => { st with signals := l }
  | none => st

/-- One React update cycle's state effect (app.js lines 186-197): both
sub-fetch outcomes applied. -/
def updateDataR (st : ReactState)
    (e : HttpOutcome SnapshotBody × HttpOutcome (List Signal)) : ReactState :=
  fetchSignalsR (fetchSnapshotR st e.1) e.2

/-- A whole session tail: a sequence of cycles applied in order. -/
def runEvents (st : ReactState)
    (es : List (HttpOutcome SnapshotBody × HttpOutcome (List Signal))) : ReactState :=
  es.foldl updateDataR st

/-- The two renderable states of the React component (app.js lines 213-221
versus 223-363): the loading screen before any snapshot exists, or the
dashboard grid. -/
inductive ReactView where
  | loading
  | dashboard (snap : Snapshot) (signals : List Signal) (lastUpdate : Option Nat)
deriving DecidableEq

/-- Model of the component's render (app.js line 213: `if (!snapshot)`). -/
def reactRender (st : ReactState) : ReactView :=
  match st.snapshot with
  | none => ReactView.loading
  | some s => ReactView.dashboard s st.signals st.lastUpdate

/-- Scheduler state of the React variant: the `isUpdating` `useState` cell
and the number of update cycles started but not yet completed. -/
structure ReactSched where
  isUpdatingCell : Bool
  inFlight : Nat
deriving DecidableEq

/-- One invocation of the React `updateData` (app.js lines 186-197) as run
by a closure whose captured `isUpdating` value is `seen`: the guard reads
the captured value, not the current cell, then `setIsUpdating(true)` writes
the cell and the cycle's fetches start. -/
def updateDataReact (seen : Bool) (st : ReactSched) : ReactSched :=
  if seen then st
  else { isUpdatingCell := true, inFlight := st.inFlight + 1 }

/-- A timer tick of the React variant.  `useEffect(..., [])` (app.js lines
207-211) runs once, at mount, and registers `setInterval(updateData, 2000)`
with the `updateData` closure of the initial render — in which the
`isUpdating` value returned by `useState(false)` is `false`.  Later
`setIsUpdating` calls replace the cell and re-render, producing fresh
closures, but never change what the registered closure captured, so every
tick invokes `updateDataReact` with `seen = false`. -/
def intervalTickReact (st : ReactSched) : ReactSched :=
  updateDataReact false st

/-- Completion of one React cycle (app.js lines 194-196): the `finally`
block writes `setIsUpdating(false)` and the cycle leaves flight. -/
def completeReact (st : ReactSched) : ReactSched :=
  { isUpdatingCell := false, inFlight := st.inFlight - 1 }

/-- The mount state of the React scheduler: `useState(false)`, nothing in
flight. -/
def mountSched : ReactSched :=
  { isUpdatingCell := false, inFlight := 0 }

/-- Concrete snapshot used to instantiate hypotheses of the theorems below. -/
def snapA : Snapshot :=
  { timestamp := 1700000000000
    system_status := "Running"
    total_signals := 42
    active_positions := 3
    daily_pnl := mkRat (-25) 2
    data_feed_connected := true
    trading_api_connected := false
    cpu_usage := mkRat 11 2
    memory_usage := mkRat 625 10
    uptime_seconds := 7384
    symbols := [] }

/-- Concrete symbol with both optional fields absent. -/
def symbolA : SymbolState :=
  { symbol := "AAPL", trend := "Sideways", current_price := none, price_change_pct := none }

/-- Concrete symbol with a present price and a negative change percentage. -/
def symbolB : SymbolState :=
  { symbol := "SPY", trend := "Uptrend"
    current_price := some (mkRat 152484 1000)
    price_change_pct := some (mkRat (-5) 1) }

/-- Concrete symbol whose change percentage is exactly zero. -/
def symbolC : SymbolState :=
  { symbol := "IWM", trend := "Sideways"
    current_price := some (mkRat 199 1)
    price_change_pct := some 0 }

/-- Concrete signal generator for list scenarios. -/
def mkSig (n : Nat) : Signal :=
  { signal_type := if n % 2 = 0 then ("BUY") else ("SELL")
    symbol := ("SYM") ++ toString n
    price := mkRat (Int.ofNat (100 + n)) 1
    timestamp := 1700000000000 + n
    reason := ("reason ") ++ toString n }

/-- A 15-element signal history (the spec's truncation scenario). -/
def sig15 : List Signal :=
  (List.range 15).map mkSig

/-- Class-variant state with a cycle in flight. -/
def stBusy : DashState :=
  { isUpdating := true, snapshotView := none, signalsView := none }

/-- Class-variant state with a cycle in flight and both panels already
rendered from earlier data. -/
def stShownBusy : DashState :=
  { isUpdating := true
    snapshotView := some (renderSnapshot snapA)
    signalsView := some (renderSignals sig15) }

/-- React state after a first successful snapshot fetch. -/
def stShow : ReactState :=
  { snapshot := some snapA, signals := [], lastUpdate := some 1700000000000
    isUpdating := false }

/-- Two consecutive cycles in which every sub-fetch's promise rejects. -/
def esFail : List (HttpOutcome SnapshotBody × HttpOutcome (List Signal)) :=
  [(HttpOutcome.netError, HttpOutcome.netError),
   (HttpOutcome.netError, HttpOutcome.netError)]

/-- One cycle whose snapshot response is a 200 with the body `null`
(decodable JSON, not snapshot-shaped) and whose signal fetch rejects. -/
def esNullBody : List (HttpOutcome SnapshotBody × HttpOutcome (List Signal)) :=
  [(HttpOutcome.response true (some SnapshotBody.jsNull), HttpOutcome.netError)]

/-- The class variant's overlap guard (supporting evidence for the C1
verdict): an invocation of `updateData` while a cycle is in flight changes
nothing (the tick is skipped, not queued, and no fetch starts); an
invocation with the guard free sets the guard before the fetches run;
completion of a cycle clears the guard regardless of the two sub-fetch
outcomes; and immediately after a completion the very next invocation
starts a new cycle.  This half of the program honors the claim; the React
variant's guard is inert (see `intervalTickReact` and the C1 theorem). -/
theorem updateData_overlap_guard (st : DashState) :
    (st.isUpdating = true → step st Event.tick = st) ∧
    (st.isUpdating = false → (step st Event.tick).isUpdating = true) ∧
    (∀ snap sigs, st.isUpdating = true →
      (step st (Event.complete snap sigs)).isUpdating = false) ∧
    (∀ snap sigs, st.isUpdating = true →
      (step (step st (Event.complete snap sigs)) Event.tick).isUpdating = true) := by
  refine ⟨fun h => ?_, fun h => ?_, fun snap sigs h => ?_, fun snap sigs h => ?_⟩ <;>
    simp [step, h]

/-- The class-variant guard at a concrete in-flight state. -/
theorem updateData_overlap_guard_witness :
    step stBusy Event.tick = stBusy ∧
    (step stBusy (Event.complete HttpOutcome.netError HttpOutcome.netError)).isUpdating
      = false ∧
    (step (step stBusy (Event.complete HttpOutcome.netError HttpOutcome.netError))
        Event.tick).isUpdating = true :=
  ⟨(updateData_overlap_guard stBusy).1 rfl,
   (updateData_overlap_guard stBusy).2.2.1 HttpOutcome.netError HttpOutcome.netError rfl,
   (updateData_overlap_guard stBusy).2.2.2 HttpOutcome.netError HttpOutcome.netError rfl⟩

/-- Claim C1 (code bug): the guard written in the React `updateData` is
inert.  The interval registered by the mount-only effect always runs the
initial render's closure, whose captured `isUpdating` is `false`, so every
tick passes the `if (isUpdating) return` check and starts a cycle — even
when the `isUpdating` cell is already `true`.  From the mount state, two
ticks with no completion in between leave two cycles in flight, violating
the claimed at-most-one-cycle guarantee (which the spec states and the
class variant's guard does enforce). -/
theorem react_overlap_guard_inert :
    (∀ st : ReactSched, intervalTickReact st = updateDataReact false st ∧
        (intervalTickReact st).inFlight = st.inFlight + 1 ∧
        (intervalTickReact st).isUpdatingCell = true) ∧
    (intervalTickReact mountSched).inFlight = 1 ∧
    (intervalTickReact mountSched).isUpdatingCell = true ∧
    (intervalTickReact (intervalTickReact mountSched)).inFlight = 2 :=
  ⟨fun _ => ⟨rfl, rfl, rfl⟩, rfl, rfl, rfl⟩

/-- Claim C2 (amended): failure isolation for the failures the code
detects.  If the signal sub-fetch throws (network error or undecodable
body) while the snapshot sub-fetch delivers a decoded body — whatever its
HTTP status flag — the completing cycle updates the snapshot panel from
that body, leaves the signals panel exactly as it was before the cycle,
and still releases the guard; symmetrically for the opposite combination.
A non-success HTTP status alone is not such a failure: the code never
reads `response.ok`, so its decoded body is rendered (see the
counterexample). -/
theorem cycle_failure_isolation (st : DashState) (d : Snapshot)
    (l : List Signal) (ok : Bool) (h : st.isUpdating = true) :
    (∀ sigOut, fetchThrew sigOut = true →
        (step st (Event.complete (HttpOutcome.response ok (some d)) sigOut)).snapshotView
          = some (renderSnapshot d) ∧
        (step st (Event.complete (HttpOutcome.response ok (some d)) sigOut)).signalsView
          = st.signalsView ∧
        (step st (Event.complete (HttpOutcome.response ok (some d)) sigOut)).isUpdating
          = false) ∧
    (∀ snapOut, fetchThrew snapOut = true →
        (step st (Event.complete snapOut (HttpOutcome.response ok (some l)))).signalsView
          = some (renderSignals l) ∧
        (step st (Event.complete snapOut (HttpOutcome.response ok (some l)))).snapshotView
          = st.snapshotView ∧
        (step st (Event.complete snapOut (HttpOutcome.response ok (some l)))).isUpdating
          = false) := by
  refine ⟨fun sigOut hs => ?_, fun snapOut hs => ?_⟩
  · rcases sigOut with _ | ⟨ok2, _ | l2⟩
    · refine ⟨?_, ?_, ?_⟩ <;> simp [step, h, processFetch]
    · refine ⟨?_, ?_, ?_⟩ <;> simp [step, h, processFetch]
    · simp [fetchThrew] at hs
  · rcases snapOut with _ | ⟨ok2, _ | d2⟩
    · refine ⟨?_, ?_, ?_⟩ <;> simp [step, h, processFetch]
    · refine ⟨?_, ?_, ?_⟩ <;> simp [step, h, processFetch]
    · simp [fetchThrew] at hs

/-- Witness for C2 at a concrete in-flight state: a rejected fetch on one
side, a decoded 200 body on the other. -/
theorem cycle_failure_isolation_witness :
    ((step stBusy (Event.complete (HttpOutcome.response true (some snapA))
          HttpOutcome.netError)).snapshotView = some (renderSnapshot snapA) ∧
     (step stBusy (Event.complete (HttpOutcome.response true (some snapA))
          HttpOutcome.netError)).signalsView = stBusy.signalsView ∧
     (step stBusy (Event.complete (HttpOutcome.response true (some snapA))
          HttpOutcome.netError)).isUpdating = false) ∧
    ((step stBusy (Event.complete HttpOutcome.netError
          (HttpOutcome.response true (some sig15)))).signalsView
        = some (renderSignals sig15) ∧
     (step stBusy (Event.complete HttpOutcome.netError
          (HttpOutcome.response true (some sig15)))).snapshotView = stBusy.snapshotView ∧
     (step stBusy (Event.complete HttpOutcome.netError
          (HttpOutcome.response true (some sig15)))).isUpdating = false) :=
  ⟨(cycle_failure_isolation stBusy snapA sig15 true rfl).1 HttpOutcome.netError rfl,
   (cycle_failure_isolation stBusy snapA sig15 true rfl).2 HttpOutcome.netError rfl⟩

/-- Claim C2 (counterexample): a non-success HTTP status is not a
no-render failure.  In a cycle whose signal request yields a 500 whose
body decodes to the JSON array `[]` (and whose snapshot fetch rejects),
the code — which never checks `response.ok` — hands the decoded body to
`renderSignals`, rewriting the signals panel to the empty-state
placeholder: the Signal-derived view is not left as it was before the
cycle. -/
theorem cycle_failure_isolation_counterexample :
    (step stShownBusy (Event.complete HttpOutcome.netError
        (HttpOutcome.response false (some [])))).signalsView
      = some (renderSignals []) ∧
    (step stShownBusy (Event.complete HttpOutcome.netError
        (HttpOutcome.response false (some [])))).signalsView
      ≠ stShownBusy.signalsView :=
  ⟨rfl, by decide⟩

/-- Claim C3: for every non-negative integer `s`, `formatUptime s` is the
hours component `⌊s / 3600⌋` followed by the minutes component
`⌊(s % 3600) / 60⌋`, and the minutes component lies in `[0, 59]`. -/
theorem formatUptime_components (s : Nat) :
    formatUptime s
      = toString (s / 3600) ++ ("小时") ++ toString (s % 3600 / 60) ++ ("分钟") ∧
    s % 3600 / 60 ≤ 59 :=
  ⟨rfl, by omega⟩

/-- Claim C10: the signal renderer shows a dedicated empty-state message for
the empty history rather than an empty list, in both variants, mirroring the
empty-symbols placeholder. -/
theorem empty_signals_placeholder :
    renderSignals [] = SignalsView.placeholder ("暂无信号数据") ∧
    signalsPanelReact [] = SignalsView.placeholder ("暂无信号数据") ∧
    renderSymbols [] = SymbolsView.placeholder ("暂无股票数据") :=
  ⟨rfl, rfl, rfl⟩

/-- Claim C4: for every non-empty signal sequence, both variants render
exactly the first `min 10 length` entries — the items list is the image of
`signals.take 10` in input order, so at most the first 10 entries ever
appear. -/
theorem renderSignals_truncation (signals : List Signal) (h : signals ≠ []) :
    (∃ l, renderSignals signals = SignalsView.items l ∧
        l = (signals.take 10).map renderSignalItem ∧
        l.length = min 10 signals.length) ∧
    (∃ l, signalsPanelReact signals = SignalsView.items l ∧
        l = (signals.take 10).map renderSignalItemReact ∧
        l.length = min 10 signals.length) := by
  have hlen : ¬ signals.length = 0 := fun hh => h (List.length_eq_zero.mp hh)
  refine ⟨⟨(signals.take 10).map renderSignalItem, ?_, rfl, ?_⟩,
          ⟨(signals.take 10).map renderSignalItemReact, ?_, rfl, ?_⟩⟩
  · simp [renderSignals, hlen]
  · simp [List.length_take]
  · simp [signalsPanelReact, hlen]
  · simp [List.length_take]

/-- Witness for C4 at the concrete 15-element history: exactly the first 10
elements are rendered, in input order. -/
theorem renderSignals_truncation_witness :
    ((∃ l, renderSignals sig15 = SignalsView.items l ∧
        l = (sig15.take 10).map renderSignalItem ∧
        l.length = min 10 sig15.length) ∧
     (∃ l, signalsPanelReact sig15 = SignalsView.items l ∧
        l = (sig15.take 10).map renderSignalItemReact ∧
        l.length = min 10 sig15.length)) ∧
    sig15.length = 15 ∧
    (sig15.take 10).map renderSignalItem
      = [renderSignalItem (mkSig 0), renderSignalItem (mkSig 1),
         renderSignalItem (mkSig 2), renderSignalItem (mkSig 3),
         renderSignalItem (mkSig 4), renderSignalItem (mkSig 5),
         renderSignalItem (mkSig 6), renderSignalItem (mkSig 7),
         renderSignalItem (mkSig 8), renderSignalItem (mkSig 9)] :=
  ⟨renderSignals_truncation sig15 (by decide), by decide, by decide⟩

/-- Claim C5: the status style key is the status string lower-cased with all
non-alphabetic characters removed; the key is attached after the constant
base class for every status string whatsoever (no key is ever rejected), and
the result contains only the characters `a`-`z`.  In particular
`"Partially-Degraded!!"` yields the key `partiallydegraded`. -/
theorem status_class_derivation (d : Snapshot) :
    (renderSnapshot d).statusClassName
      = ("status-indicator ") ++ statusClass d.system_status ∧
    (∀ c ∈ (statusClass d.system_status).data, 'a' ≤ c ∧ c ≤ 'z') ∧
    statusClass ("Partially-Degraded!!") = ("partiallydegraded") := by
  refine ⟨rfl, ?_, by decide⟩
  intro c hc
  simp only [statusClass, String.mk, List.mem_filter, decide_eq_true_eq] at hc
  exact hc.2

/-- Witness for C5 at a concrete snapshot, including the membership bound
evaluated on the first character of the derived key. -/
theorem status_class_derivation_witness :
    (renderSnapshot snapA).statusClassName
      = ("status-indicator ") ++ statusClass snapA.system_status ∧
    statusClass ("Partially-Degraded!!") = ("partiallydegraded") ∧
    ('a' ≤ 'r' ∧ 'r' ≤ 'z') :=
  ⟨(status_class_derivation snapA).1,
   (status_class_derivation snapA).2.2,
   (status_class_derivation snapA).2.1 'r' (by decide)⟩

/-- Claim C6: for every `daily_pnl` value the rendered text is the dollar
sign followed by the value formatted to exactly two decimal places (sign,
integer part, a dot, then exactly two decimal digits), the color is chosen
by the sign test `daily_pnl >= 0` with zero on the positive branch (in both
variants), and `daily_pnl = -12.5` renders with the negative-branch color
and text exactly `$-12.50`. -/
theorem daily_pnl_rendering (q : ℚ) :
    (renderPnl q).text = ("$") ++ toFixed2 q ∧
    (∃ intPart : String, toFixed2 q
        = (if q < 0 then ("-") else ("")) ++ intPart ++ (".") ++
            String.mk [Nat.digitChar (cents q / 10 % 10), Nat.digitChar (cents q % 10)] ∧
        (String.mk [Nat.digitChar (cents q / 10 % 10), Nat.digitChar (cents q % 10)]).length
          = 2) ∧
    ((0 : ℚ) ≤ q → (renderPnl q).color = ("#27ae60")) ∧
    (q < 0 → (renderPnl q).color = ("#e74c3c")) ∧
    ((0 : ℚ) ≤ q → pnlClassReact q = ("text-green-600")) ∧
    (q < 0 → pnlClassReact q = ("text-red-600")) ∧
    (renderPnl 0).color = ("#27ae60") ∧
    (renderPnl (mkRat (-25) 2)).text = ("$-12.50") ∧
    (renderPnl (mkRat (-25) 2)).color = ("#e74c3c") ∧
    (mkRat (-25) 2 : ℚ) = -12.5 := by
  refine ⟨rfl, ⟨toString (cents q / 100), rfl, rfl⟩,
    fun h => ?_, fun h => ?_, fun h => ?_, fun h => ?_,
    by decide, by decide, by decide, by rw [Rat.mkRat_eq_div]; norm_num⟩
  · simp [renderPnl, ge_iff_le, h]
  · simp [renderPnl, ge_iff_le, not_le.mpr h]
  · simp [pnlClassReact, ge_iff_le, h]
  · simp [pnlClassReact, ge_iff_le, not_le.mpr h]

/-- Witness for C6 at the claim's concrete value `-12.5`. -/
theorem daily_pnl_rendering_witness :
    (renderPnl (mkRat (-25) 2)).text = ("$-12.50") ∧
    (renderPnl (mkRat (-25) 2)).color = ("#e74c3c") ∧
    pnlClassReact (mkRat (-25) 2) = ("text-red-600") ∧
    (renderPnl 0).color = ("#27ae60") :=
  ⟨(daily_pnl_rendering 0).2.2.2.2.2.2.2.1,
   (daily_pnl_rendering 0).2.2.2.2.2.2.2.2.1,
   (daily_pnl_rendering (mkRat (-25) 2)).2.2.2.2.2.1 (by decide),
   (daily_pnl_rendering 0).2.2.2.2.2.2.1⟩

/-- Claim C7 (amended): optional symbol fields.  In both variants, when
`current_price` is absent or falsy (zero) the price slot renders the
placeholder `--`, and a present non-zero `price_change_pct` renders to two
decimal places with `>= 0` sign coloring.  The zero-percentage behavior
differs between the variants: the vanilla renderer's string ternary emits
the empty string, omitting the percentage element for absent and zero
alike (zero indistinguishable from not-present there), while the React
renderer's `{pct && <span/>}` omits the element only for an absent value —
for exactly zero it renders the number itself as a literal `0` text node,
so zero is visibly distinguishable from not-present in the React output
(see the counterexample). -/
theorem symbol_optional_fields (sym : SymbolState) :
    ((sym.current_price = none ∨ sym.current_price = some 0) →
        (renderSymbolItem sym).priceText = ("$") ++ ("--")) ∧
    ((sym.price_change_pct = none ∨ sym.price_change_pct = some 0) →
        (renderSymbolItem sym).pctElement = none) ∧
    (∀ p : ℚ, sym.price_change_pct = some p → ¬ p = 0 →
        (renderSymbolItem sym).pctElement
          = some { color := if p ≥ 0 then ("#27ae60") else ("#e74c3c")
                   text := toFixed2 p ++ ("%") }) ∧
    (∀ p : ℚ, sym.current_price = some p → ¬ p = 0 →
        (renderSymbolItem sym).priceText = ("$") ++ toFixed2 p) ∧
    (sym.price_change_pct = none →
        renderPctReact sym.price_change_pct = JsxPctNode.omitted) ∧
    (sym.price_change_pct = some 0 →
        renderPctReact sym.price_change_pct = JsxPctNode.literalZero) ∧
    (∀ p : ℚ, sym.price_change_pct = some p → ¬ p = 0 →
        renderPctReact sym.price_change_pct
          = JsxPctNode.span
              (if p ≥ 0 then ("text-green-600") else ("text-red-600"))
              (toFixed2 p ++ ("%"))) := by
  refine ⟨fun h => ?_, fun h => ?_, fun p hp hpne => ?_, fun p hp hpne => ?_,
    fun h => ?_, fun h => ?_, fun p hp hpne => ?_⟩
  · rcases h with h | h <;> simp [renderSymbolItem, h]
  · rcases h with h | h <;> simp [renderSymbolItem, h]
  · simp [renderSymbolItem, hp, hpne]
  · simp [renderSymbolItem, hp, hpne]
  · simp [renderPctReact, h]
  · simp [renderPctReact, h]
  · simp [renderPctReact, hp, hpne]

/-- Witness for C7 at a symbol with both fields absent, a symbol with a
negative non-zero percentage, and a symbol with an exactly-zero
percentage. -/
theorem symbol_optional_fields_witness :
    (renderSymbolItem symbolA).priceText = ("$") ++ ("--") ∧
    (renderSymbolItem symbolA).pctElement = none ∧
    (renderSymbolItem symbolB).pctElement
      = some { color := if (mkRat (-5) 1 : ℚ) ≥ 0 then ("#27ae60") else ("#e74c3c")
               text := toFixed2 (mkRat (-5) 1) ++ ("%") } ∧
    (renderSymbolItem symbolB).priceText = ("$") ++ toFixed2 (mkRat 152484 1000) ∧
    renderPctReact symbolA.price_change_pct = JsxPctNode.omitted ∧
    renderPctReact symbolC.price_change_pct = JsxPctNode.literalZero ∧
    renderPctReact symbolB.price_change_pct
      = JsxPctNode.span
          (if (mkRat (-5) 1 : ℚ) ≥ 0 then ("text-green-600") else ("text-red-600"))
          (toFixed2 (mkRat (-5) 1) ++ ("%")) :=
  ⟨(symbol_optional_fields symbolA).1 (Or.inl rfl),
   (symbol_optional_fields symbolA).2.1 (Or.inl rfl),
   (symbol_optional_fields symbolB).2.2.1 (mkRat (-5) 1) rfl (by decide),
   (symbol_optional_fields symbolB).2.2.2.1 (mkRat 152484 1000) rfl (by decide),
   (symbol_optional_fields symbolA).2.2.2.2.1 rfl,
   (symbol_optional_fields symbolC).2.2.2.2.2.1 rfl,
   (symbol_optional_fields symbolB).2.2.2.2.2.2 (mkRat (-5) 1) rfl (by decide)⟩

/-- Claim C7 (counterexample): in the React variant a zero
`price_change_pct` is not omitted and not indistinguishable from absent —
`{0 && <span/>}` evaluates to `0`, which JSX renders as a literal text
node, unlike the absent case which renders nothing. -/
theorem symbol_optional_fields_counterexample :
    renderPctReact (some 0) = JsxPctNode.literalZero ∧
    renderPctReact none = JsxPctNode.omitted ∧
    renderPctReact (some 0) ≠ renderPctReact none :=
  ⟨rfl, rfl, by decide⟩

/-- Claim C8: the React status badge classifies by case-insensitive
substring matching (`toLowerCase().includes(…)`), not exact comparison, and
every status matching neither known substring falls back to the neutral
yellow class.  The concrete cases show a match inside a longer, differently
cased string and the neutral fallback. -/
theorem status_badge_substring_classification (s : String) :
    (jsIncludes (jsToLower s) ("running") = true →
        statusBadgeClass s = ("bg-green-600")) ∧
    (jsIncludes (jsToLower s) ("running") = false →
        jsIncludes (jsToLower s) ("stopped") = true →
        statusBadgeClass s = ("bg-red-600")) ∧
    (jsIncludes (jsToLower s) ("running") = false →
        jsIncludes (jsToLower s) ("stopped") = false →
        statusBadgeClass s = ("bg-yellow-600")) ∧
    statusBadgeClass ("The system is RUNNING now") = ("bg-green-600") ∧
    statusBadgeClass ("halted (Stopped)") = ("bg-red-600") ∧
    statusBadgeClass ("Partially-Degraded!!") = ("bg-yellow-600") := by
  refine ⟨fun h1 => ?_, fun h1 h2 => ?_, fun h1 h2 => ?_, by decide, by decide, by decide⟩
  · simp [statusBadgeClass, h1]
  · simp [statusBadgeClass, h1, h2]
  · simp [statusBadgeClass, h1, h2]

/-- Witness for C8: fallback discharged at the concrete status
`"Maintenance"`, plus the substring-match case from the theorem. -/
theorem status_badge_substring_classification_witness :
    statusBadgeClass ("Maintenance") = ("bg-yellow-600") ∧
    statusBadgeClass ("The system is RUNNING now") = ("bg-green-600") :=
  ⟨(status_badge_substring_classification ("Maintenance")).2.2.1 (by decide) (by decide),
   (status_badge_substring_classification ("Maintenance")).2.2.2.1⟩

/-- `fetchSignals` never touches the snapshot cell. -/
theorem fetchSignalsR_snapshot (st : ReactState) (o : HttpOutcome (List Signal)) :
    (fetchSignalsR st o).snapshot = st.snapshot := by
  rcases ho : processFetch o with _ | l <;> simp [fetchSignalsR, ho]

/-- Once the React `snapshot` cell holds a snapshot, it stays non-null
across any sequence of cycles none of whose snapshot outcomes decodes the
falsy JSON body: rejected fetches and undecodable bodies never reach
`setSnapshot`, and shaped bodies store a snapshot. -/
theorem runEvents_preserves_snapshot
    (es : List (HttpOutcome SnapshotBody × HttpOutcome (List Signal))) :
    ∀ st : ReactState, (∀ e ∈ es, keepsSnapshot e.1 = true) →
      st.snapshot ≠ none → (runEvents st es).snapshot ≠ none := by
  induction es with
  | nil => intro st _ h; simpa [runEvents] using h
  | cons e es ih =>
      intro st hsafe h
      have he : keepsSnapshot e.1 = true := hsafe e (List.mem_cons_self e es)
      have hsnap1 : (fetchSnapshotR st e.1).snapshot ≠ none := by
        rcases e with ⟨osnap, osigs⟩
        rcases osnap with _ | ⟨ok, body⟩
        · simpa [fetchSnapshotR, processFetch] using h
        · rcases body with _ | b
          · simpa [fetchSnapshotR, processFetch] using h
          · rcases b with d | _
            · simp [fetchSnapshotR, processFetch]
            · exact absurd he (by simp [keepsSnapshot])
      have hstep : (updateDataR st e).snapshot ≠ none := by
        simpa [updateDataR, fetchSignalsR_snapshot] using hsnap1
      have hrest : ∀ e2 ∈ es, keepsSnapshot e2.1 = true :=
        fun e2 he2 => hsafe e2 (List.mem_cons_of_mem e he2)
      simpa [runEvents, List.foldl_cons] using ih (updateDataR st e) hrest hstep

/-- Claim C9 (amended): the dashboard has exactly two renderable states —
the loading screen, shown precisely while the snapshot cell is falsy, and
the data dashboard — and the transition is one-way across every later
cycle whose snapshot fetch does not decode a falsy body: rejected fetches,
undecodable bodies and snapshot-shaped bodies never clear a stored
snapshot, so no sequence of such cycles renders the loading screen again.
The transition is not irreversible in general: a decodable falsy body is
committed by the unvalidated `setSnapshot(data)` before `data.timestamp`
throws, clearing the cell (last conjunct; see the counterexample). -/
theorem loading_state_irreversible (st : ReactState)
    (es : List (HttpOutcome SnapshotBody × HttpOutcome (List Signal))) :
    (reactRender st = ReactView.loading ∨
      ∃ s, st.snapshot = some s ∧
        reactRender st = ReactView.dashboard s st.signals st.lastUpdate) ∧
    (st.snapshot = none ↔ reactRender st = ReactView.loading) ∧
    ((∀ e ∈ es, keepsSnapshot e.1 = true) → st.snapshot ≠ none →
        (runEvents st es).snapshot ≠ none) ∧
    ((∀ e ∈ es, keepsSnapshot e.1 = true) → st.snapshot ≠ none →
        reactRender (runEvents st es) ≠ ReactView.loading) ∧
    (∀ d ok, (fetchSnapshotR st
        (HttpOutcome.response ok (some (SnapshotBody.shaped d)))).snapshot = some d) ∧
    (∀ ok, (fetchSnapshotR st
        (HttpOutcome.response ok (some SnapshotBody.jsNull))).snapshot = none) := by
  refine ⟨?_, ⟨fun hs => by simp [reactRender, hs], fun hv => ?_⟩,
    fun hsafe h => runEvents_preserves_snapshot es st hsafe h,
    fun hsafe h => ?_, fun d ok => rfl, fun ok => rfl⟩
  · cases hs : st.snapshot with
    | none => exact Or.inl (by simp [reactRender, hs])
    | some s => exact Or.inr ⟨s, rfl, by simp [reactRender, hs]⟩
  · cases hs : st.snapshot with
    | none => rfl
    | some s => simp [reactRender, hs] at hv
  · have h2 := runEvents_preserves_snapshot es st hsafe h
    cases hs : (runEvents st es).snapshot with
    | none => exact absurd hs h2
    | some s => simp [reactRender, hs]

/-- Witness for C9: a session that has shown data once keeps showing data
across two consecutive cycles whose sub-fetches all reject. -/
theorem loading_state_irreversible_witness :
    (runEvents stShow esFail).snapshot ≠ none ∧
    reactRender (runEvents stShow esFail) ≠ ReactView.loading :=
  ⟨(loading_state_irreversible stShow esFail).2.2.1 (by decide) (by decide),
   (loading_state_irreversible stShow esFail).2.2.2.1 (by decide) (by decide)⟩

/-- Claim C9 (counterexample): the transition is not irreversible for the
session.  From a showing-data state, one cycle whose snapshot response is
a 200 with body `null` — a malformed-body fetch failure by the claim's
taxonomy, since the sub-fetch ends in its `catch` when `data.timestamp`
throws — commits `setSnapshot(null)` first, and the component renders the
loading screen again. -/
theorem loading_state_irreversible_counterexample :
    reactRender stShow ≠ ReactView.loading ∧
    reactRender (runEvents stShow esNullBody) = ReactView.loading :=
  ⟨by decide, rfl⟩
